import Mathlib

/-!
Verification development for the libsql server orchestration layer.

The definitions below are a shallow embedding of three source files:

* `libsql-server/src/namespace/meta_store.rs` — the per-namespace
  configuration store (`MetaStore`, `MetaStoreHandle`);
* `libsql-server/src/database.rs` — the `Database` role objects
  (`PrimaryDatabase`, `ReplicaDatabase`) and their `shutdown`;
* `libsql-sqlite3/test/rust_suite/src/virtual_wal.rs` — the pass-through
  WAL wrapper (`WrapCreateWal`, `WrapWal`).

Tokio channel semantics are embedded explicitly: a `tokio::sync::watch`
cell is a value plus a monotone version counter; a receiver remembers the
version it had marked as seen when it was created (`subscribe` marks the
then-current version as seen, and `Receiver::clone` copies the seen
version); `changed()` completes as soon as the cell's version differs
from the receiver's seen version.  The bounded `mpsc` channel is a FIFO
queue limited to 256 messages.
-/

set_option autoImplicit false

/-- Namespace identifier (`NamespaceName` from `namespace/mod.rs`): an
immutable, hashable, orderable string key. -/
abbrev NamespaceName := String

/-- Modelled from the spec: `DatabaseConfig` (from `connection/config.rs`,
not part of the provided sources) is an immutable value object describing
a namespace's runtime policy, for example quotas and replication mode.
Only its value-object nature matters here, so two representative fields
stand in for the full record. -/
structure DatabaseConfig where
  quota : Nat
  blockWrites : Bool
deriving DecidableEq, Repr

/-- `DatabaseConfig::default()`. -/
def DatabaseConfig.default : DatabaseConfig := ⟨0, false⟩

/-- The reserved bootstrap namespace name, `INTERNAL_NAMESPACE` in
`meta_store.rs`. -/
def INTERNAL_NAMESPACE : NamespaceName := "_libsql_server_internal"

/-- A `tokio::sync::watch` cell as observed through its sender: the
current value together with a monotone version counter bumped on every
publish. -/
structure WatchCell where
  value : DatabaseConfig
  version : Nat
deriving DecidableEq, Repr

/-- State of the whole metadata-store system:
`queue` is the bounded `mpsc` change channel shared by all namespaces
(`changes_tx`/`changes_rx`), `configs` is the lazily populated map from
namespace to its watch sender (`MetaStoreInner::configs`, a `HashMap`
embedded as an association list), and `internalCells` is an arena of the
`Arc<Mutex<Arc<DatabaseConfig>>>` cells allocated by the Internal handle
constructor (one per call, shared among clones of that handle). -/
structure World where
  queue : List (NamespaceName × DatabaseConfig)
  configs : List (NamespaceName × WatchCell)
  internalCells : List DatabaseConfig
deriving DecidableEq, Repr

/-- Capacity of the bounded change channel: `mpsc::channel(256)`. -/
def channelCapacity : Nat := 256

/-- Lookup of a namespace's watch cell in the config map. -/
def lookupCfg : List (NamespaceName × WatchCell) → NamespaceName → Option WatchCell
  | [], _ => none
  | (k, v) :: rest, ns => if k = ns then some v else lookupCfg rest ns

/-- Publish a new config into a namespace's watch cell
(`watch::Sender::send`-style): replace the value and bump the version.
If the namespace has no cell yet a fresh one is created. -/
def publishCfg : List (NamespaceName × WatchCell) → NamespaceName → DatabaseConfig →
    List (NamespaceName × WatchCell)
  | [], ns, c => [(ns, ⟨c, 1⟩)]
  | (k, v) :: rest, ns, c =>
    if k = ns then (k, ⟨c, v.version + 1⟩) :: rest
    else (k, v) :: publishCfg rest ns c

/-- Version of a namespace's cell as recorded in a config map (0 before
any cell exists; a fresh `watch::channel` starts at version 0). -/
def versionOfCfgs (cfgs : List (NamespaceName × WatchCell)) (ns : NamespaceName) : Nat :=
  match lookupCfg cfgs ns with
  | some cell => cell.version
  | none => 0

/-- Current version of a namespace's watch cell in a world. -/
def versionAt (w : World) (ns : NamespaceName) : Nat :=
  versionOfCfgs w.configs ns

/-- The two mutually exclusive forms of a handle (`HandleState` in
`meta_store.rs`).  `internal idx` is `Internal(Arc<Mutex<_>>)`, pointing
at cell `idx` of the arena.  `external seen` is
`External(mpsc::Sender, watch::Receiver)`: the sender is the process-wide
change channel and the receiver's state is its seen version, fixed at
`subscribe()` time. -/
inductive HandleState where
  | internal (idx : Nat)
  | external (seen : Nat)
deriving DecidableEq, Repr

/-- Whether a handle is in the External form. -/
def HandleState.isExternal : HandleState → Bool
  | .internal _ => false
  | .external _ => true

/-- `MetaStoreHandle`: the namespace plus the handle state. -/
structure MetaStoreHandle where
  ns : NamespaceName
  state : HandleState
deriving DecidableEq, Repr

/-- `MetaStore::handle`: under the short-lived inner lock, look up the
namespace's watch sender, lazily creating it (`or_insert_with` with a
fresh `watch::channel(Arc::new(DatabaseConfig::default()))`) on the first
request, and return an External handle whose receiver comes from
`sender.subscribe()` — so its seen version is the cell's current
version. -/
def MetaStore.handle (w : World) (ns : NamespaceName) : World × MetaStoreHandle :=
  match lookupCfg w.configs ns with
  | some cell => (w, ⟨ns, .external cell.version⟩)
  | none =>
    ({ w with configs := w.configs ++ [(ns, ⟨DatabaseConfig.default, 0⟩)] },
     ⟨ns, .external 0⟩)

/-- `MetaStoreHandle::internal`: allocate a fresh
`Arc<Mutex<Arc<DatabaseConfig::default()>>>` cell and wrap it in an
Internal handle for the reserved bootstrap namespace. -/
def MetaStoreHandle.internal (w : World) : World × MetaStoreHandle :=
  ({ w with internalCells := w.internalCells ++ [DatabaseConfig.default] },
   ⟨INTERNAL_NAMESPACE, .internal w.internalCells.length⟩)

/-- `MetaStoreHandle::get`: the Internal arm locks the mutex and clones
the shared value; the External arm is `config.borrow().clone()`, reading
the watch cell's current value without touching the change channel. -/
def MetaStoreHandle.get (w : World) (h : MetaStoreHandle) : DatabaseConfig :=
  match h.state with
  | .internal idx => w.internalCells.getD idx DatabaseConfig.default
  | .external _ =>
    match lookupCfg w.configs h.ns with
    | some cell => cell.value
    | none => DatabaseConfig.default

/-- Modelled from the spec: the single consumer of the change channel
(the owner of `changes_rx`; its loop is outside the provided sources)
pops the oldest `(namespace, config)` message, durably persists it, and
then publishes it into that namespace's broadcast cell.  One step
processes one whole message. -/
def consumerStep (w : World) : World :=
  match w.queue with
  | [] => w
  | (ns, c) :: rest => { w with queue := rest, configs := publishCfg w.configs ns c }

/-- Run the channel consumer for `n` steps. -/
def runConsumer (w : World) : Nat → World
  | 0 => w
  | n + 1 => runConsumer (consumerStep w) n

/-- Outcome of one `MetaStoreHandle::store` call.  The Rust return type
is `Result<()>`; `err` is its `Err` variant (never constructed by this
function), `panicked` models the `.unwrap()` aborts on channel failure,
and `blocked` models a call still suspended at an await point. -/
inductive StoreResult where
  | ok (w : World)
  | blocked
  | panicked
  | err (e : Nat)
deriving DecidableEq, Repr

/-- `MetaStoreHandle::store`.  The Internal arm replaces the value under
the mutex and returns `Ok(())` immediately.  The External arm sends
`(namespace, new_config)` on the bounded change channel (suspending while
the channel is full; `.unwrap()` panics if the channel is closed,
`closed = true`), then awaits `changed()` on a clone of the handle's
receiver: the clone's seen version is the handle's subscription version,
so the await completes as soon as the cell version differs from it.
`k` is the number of consumer steps scheduled between the send and the
poll of the await. -/
def MetaStoreHandle.store (closed : Bool) (w : World) (h : MetaStoreHandle)
    (c : DatabaseConfig) (k : Nat) : StoreResult :=
  match h.state with
  | .internal idx => .ok { w with internalCells := w.internalCells.set idx c }
  | .external seen =>
    if closed then .panicked
    else if w.queue.length < channelCapacity then
      let w1 := { w with queue := w.queue ++ [(h.ns, c)] }
      let w2 := runConsumer w1 k
      if versionAt w2 h.ns ≠ seen then .ok w2 else .blocked
    else .blocked

/-! Database role objects, from `libsql-server/src/database.rs`. -/

/-- A `tokio::sync::watch` cell holding a `bool` (the replication
logger's closed flag), again a value plus a monotone version. -/
structure WatchBool where
  value : Bool
  version : Nat
deriving DecidableEq, Repr

/-- `watch::Sender::send_replace`: unconditionally replace the value and
notify receivers (bump the version); it never fails and never panics. -/
def sendReplace (cell : WatchBool) (b : Bool) : WatchBool :=
  { value := b, version := cell.version + 1 }

/-- `ReplicationLogger`, reduced to the one field `database.rs` touches:
its `closed_signal` broadcast cell. -/
structure ReplicationLogger where
  closed_signal : WatchBool
deriving DecidableEq, Repr

/-- `ReplicaDatabase`: owns only a connection maker, of abstract type
`M` (the `Arc<dyn MakeConnection<..>>` trait object). -/
structure ReplicaDatabase (M : Type) where
  connection_maker : M

/-- `impl Database for ReplicaDatabase`: `fn shutdown(&self) {}` — an
empty body taking `&self`; it creates nothing, drops nothing, and does
not await, so it cannot block or panic. -/
def ReplicaDatabase.shutdown {M : Type} (db : ReplicaDatabase M) : ReplicaDatabase M := db

/-- `PrimaryDatabase`: a replication logger plus a connection maker of
abstract type `M`. -/
structure PrimaryDatabase (M : Type) where
  logger : ReplicationLogger
  connection_maker : M

/-- `impl Database for PrimaryDatabase`:
`fn shutdown(&self) { self.logger.closed_signal.send_replace(true); }`. -/
def PrimaryDatabase.shutdown {M : Type} (db : PrimaryDatabase M) : PrimaryDatabase M :=
  { db with logger := { db.logger with
      closed_signal := sendReplace db.logger.closed_signal true } }

/-!
The virtual WAL pass-through wrapper, from
`libsql-sqlite3/test/rust_suite/src/virtual_wal.rs`.

The inner implementation (`Sqlite3Wal` / `CreateSqlite3Wal`) is the
stock engine's WAL behind FFI, so it is embedded as an abstract record
of operations over an abstract WAL state `σ` (and factory state `τ`).
Machine integers are embedded as `Int`/`Nat`; byte and word buffers as
`List Nat`; a fallible operation returns `Except Int α` where the `Int`
is the engine-level error code.  An `&mut self` method is state passing:
it consumes a state and returns the updated state alongside its result.
-/

/-- The `Wal` trait: one field per method, in source order.  Handler
arguments (`UndoHandler`, `BusyHandler`) are abstract functions passed
through unchanged. -/
structure WalOps (σ : Type) where
  limit : σ → Int → σ
  begin_read_txn : σ → Except Int (Bool × σ)
  end_read_txn : σ → σ
  find_frame : σ → Nat → Except Int (Nat × σ)
  read_frame : σ → Nat → List Nat → Except Int (List Nat × σ)
  db_size : σ → Nat
  begin_write_txn : σ → Except Int σ
  end_write_txn : σ → Except Int σ
  undo : σ → Option (Nat → Except Int Unit) → Except Int σ
  savepoint : σ → List Nat → List Nat × σ
  savepoint_undo : σ → List Nat → Except Int (List Nat × σ)
  insert_frames : σ → Int → List (Nat × List Nat) → Nat → Bool → Int → Except Int σ
  checkpoint : σ → Nat → Nat → Option (Unit → Bool) → Nat → List Nat →
    Except Int ((Nat × Nat) × σ)
  exclusive_mode : σ → Int → Except Int σ
  uses_heap_memory : σ → Bool
  set_db : σ → Nat → σ
  callback : σ → Int
  last_fame_index : σ → Nat

/-- The `CreateWal` trait (the WAL factory): `τ` is the factory's own
state, `σ` the state of the WAL instances it opens.  VFS and file
handles are abstract tokens (`Nat`); `db_path` is a string. -/
structure CreateWalOps (τ σ : Type) where
  use_shared_memory : τ → Bool
  open_wal : τ → Nat → Nat → Int → Int → String → Except Int σ
  close_wal : τ → σ → Nat → Int → List Nat → Except Int Unit
  destroy_log : τ → Nat → String → Except Int Unit
  log_exists : τ → Nat → String → Except Int Bool
  destroy : τ → Unit

/-- `struct WrapWal(Sqlite3Wal)`: a newtype around the inner WAL
state. -/
structure WrapWal (σ : Type) where
  inner : σ
deriving DecidableEq, Repr

/-- `struct WrapCreateWal { inner: CreateSqlite3Wal }`. -/
structure WrapCreateWal (τ : Type) where
  inner : τ
deriving DecidableEq, Repr

/-- `impl Wal for WrapWal`: every method delegates to `self.0` with all
arguments passed through unchanged. -/
def wrapWalOps {σ : Type} (W : WalOps σ) : WalOps (WrapWal σ) where
  limit s size := ⟨W.limit s.inner size⟩
  begin_read_txn s := (W.begin_read_txn s.inner).map fun p => (p.1, ⟨p.2⟩)
  end_read_txn s := ⟨W.end_read_txn s.inner⟩
  find_frame s page_no := (W.find_frame s.inner page_no).map fun p => (p.1, ⟨p.2⟩)
  read_frame s frame_no buffer :=
    (W.read_frame s.inner frame_no buffer).map fun p => (p.1, ⟨p.2⟩)
  db_size s := W.db_size s.inner
  begin_write_txn s := (W.begin_write_txn s.inner).map fun s2 => ⟨s2⟩
  end_write_txn s := (W.end_write_txn s.inner).map fun s2 => ⟨s2⟩
  undo s handler := (W.undo s.inner handler).map fun s2 => ⟨s2⟩
  savepoint s rollback_data :=
    let p := W.savepoint s.inner rollback_data
    (p.1, ⟨p.2⟩)
  savepoint_undo s rollback_data :=
    (W.savepoint_undo s.inner rollback_data).map fun p => (p.1, ⟨p.2⟩)
  insert_frames s page_size page_headers size_after is_commit sync_flags :=
    (W.insert_frames s.inner page_size page_headers size_after is_commit
      sync_flags).map fun s2 => ⟨s2⟩
  checkpoint s db mode busy_handler sync_flags buf :=
    (W.checkpoint s.inner db mode busy_handler sync_flags buf).map fun p => (p.1, ⟨p.2⟩)
  exclusive_mode s op := (W.exclusive_mode s.inner op).map fun s2 => ⟨s2⟩
  uses_heap_memory s := W.uses_heap_memory s.inner
  set_db s db := ⟨W.set_db s.inner db⟩
  callback s := W.callback s.inner
  last_fame_index s := W.last_fame_index s.inner

/-- `impl CreateWal for WrapCreateWal`: every method delegates to
`self.inner`; `open` wraps the returned WAL in `WrapWal`, `close`
unwraps it. -/
def wrapCreateWalOps {τ σ : Type} (CW : CreateWalOps τ σ) :
    CreateWalOps (WrapCreateWal τ) (WrapWal σ) where
  use_shared_memory t := CW.use_shared_memory t.inner
  open_wal t vfs file no_shm_mode max_log_size db_path :=
    (CW.open_wal t.inner vfs file no_shm_mode max_log_size db_path).map WrapWal.mk
  close_wal t wal db sync_flags scratch :=
    CW.close_wal t.inner wal.inner db sync_flags scratch
  destroy_log t vfs db_path := CW.destroy_log t.inner vfs db_path
  log_exists t vfs db_path := CW.log_exists t.inner vfs db_path
  destroy t := CW.destroy t.inner

/-- Observation of a wrapped fallible result carrying a value and a
state: strip the `WrapWal` constructor, leaving error codes and values
untouched. -/
def obsPair {σ α : Type} (r : Except Int (α × WrapWal σ)) : Except Int (α × σ) :=
  r.map fun p => (p.1, p.2.inner)

/-- Observation of a wrapped fallible result carrying only a state. -/
def obsState {σ : Type} (r : Except Int (WrapWal σ)) : Except Int σ :=
  r.map WrapWal.inner

/-! Helper lemmas. -/

/-- Setting the element just past `l` in `l ++ [d]` replaces `d`. -/
lemma set_length_append {α : Type} (l : List α) (d x : α) :
    (l ++ [d]).set l.length x = l ++ [x] := by
  induction l with
  | nil => rfl
  | cons a t _ih => simp

/-- Reading the element just past `l` in `l ++ [x]` yields `x`. -/
lemma getD_length_append {α : Type} (l : List α) (x d : α) :
    (l ++ [x]).getD l.length d = x := by
  induction l with
  | nil => rfl
  | cons a t _ih => simp [List.getD]

/-- Publishing for `ns` makes `ns`'s cell hold the new value at a version
one above the previous one. -/
lemma lookupCfg_publishCfg_self (cfgs : List (NamespaceName × WatchCell))
    (ns : NamespaceName) (c : DatabaseConfig) :
    lookupCfg (publishCfg cfgs ns c) ns = some ⟨c, versionOfCfgs cfgs ns + 1⟩ := by
  induction cfgs with
  | nil => simp [publishCfg, lookupCfg, versionOfCfgs]
  | cons kv rest ih =>
    obtain ⟨k, v⟩ := kv
    by_cases hk : k = ns
    · simp [publishCfg, lookupCfg, versionOfCfgs, hk]
    · simp [publishCfg, lookupCfg, versionOfCfgs, hk] at ih ⊢
      exact ih

/-- The consumer leaves a drained queue drained and the state fixed. -/
lemma runConsumer_nil_queue (w : World) (hq : w.queue = []) :
    ∀ n, runConsumer w n = w := by
  intro n
  induction n with
  | zero => rfl
  | succ m ih =>
    have hstep : consumerStep w = w := by
      unfold consumerStep
      rw [hq]
    rw [runConsumer, hstep]
    exact ih

/-- A consumer step on a state whose queue holds exactly one message
publishes it and drains the queue. -/
lemma consumerStep_single (w : World) (ns : NamespaceName) (c : DatabaseConfig)
    (hq : w.queue = [(ns, c)]) :
    consumerStep w = { w with queue := [], configs := publishCfg w.configs ns c } := by
  unfold consumerStep
  rw [hq]

/-! Claim theorems. -/

/-- Claim C9: `ReplicaDatabase::shutdown` is a no-op: it returns the
state unchanged (its Rust body is empty), so it changes no observable
state, is safe without any connection ever created, never panics, and
does not block. -/
theorem replica_shutdown_noop :
    ∀ (M : Type) (db : ReplicaDatabase M),
      db.shutdown = db ∧ db.shutdown.connection_maker = db.connection_maker := by
  intro M db
  exact ⟨rfl, rfl⟩

/-- Claim C6: `PrimaryDatabase::shutdown` sets the replication logger's
closed-flag broadcast cell to closed via `send_replace(true)`, and a
second call (a total operation, no panic) leaves the closed signal
observably closed, with the same observable value as after one call. -/
theorem primary_shutdown_idempotent_closed :
    ∀ (M : Type) (db : PrimaryDatabase M),
      (db.shutdown).logger.closed_signal.value = true ∧
      (db.shutdown.shutdown).logger.closed_signal.value = true ∧
      (db.shutdown.shutdown).logger.closed_signal.value
        = (db.shutdown).logger.closed_signal.value := by
  intro M db
  exact ⟨rfl, rfl, rfl⟩

/-- Claim C2: on an Internal handle (as built by
`MetaStoreHandle::internal`), `store x` replaces the shared value under
the lock and returns `Ok(())`, and a following `get` returns exactly
`x`. -/
theorem internal_store_get_roundtrip :
    ∀ (w : World) (x : DatabaseConfig) (closed : Bool) (k : Nat),
      ∃ w' : World,
        MetaStoreHandle.store closed (MetaStoreHandle.internal w).1
          (MetaStoreHandle.internal w).2 x k = .ok w' ∧
        MetaStoreHandle.get w' (MetaStoreHandle.internal w).2 = x := by
  intro w x closed k
  refine ⟨{ w with internalCells := w.internalCells ++ [x] }, ?_, ?_⟩
  · simp only [MetaStoreHandle.internal, MetaStoreHandle.store, set_length_append]
  · simp only [MetaStoreHandle.internal, MetaStoreHandle.get]
    exact getD_length_append _ _ _

/-- Claim C7: the External arm of `MetaStoreHandle::store` never returns
a typed error (`Err` is unreachable from it); when the change channel is
closed the `.unwrap()` turns the failure into a panic, an unconditional
failure rather than a typed result; and while the store is alive
(channel never closed) that panic branch is unreachable. -/
theorem store_external_failure_policy :
    ∀ (closed : Bool) (w : World) (ns : NamespaceName) (seen : Nat)
      (c : DatabaseConfig) (k : Nat),
      (∀ e, MetaStoreHandle.store closed w ⟨ns, .external seen⟩ c k ≠ .err e) ∧
      (closed = true →
        MetaStoreHandle.store closed w ⟨ns, .external seen⟩ c k = .panicked) ∧
      (closed = false →
        MetaStoreHandle.store closed w ⟨ns, .external seen⟩ c k ≠ .panicked) := by
  intro closed w ns seen c k
  cases closed with
  | true => simp [MetaStoreHandle.store]
  | false =>
    refine ⟨?_, by simp, ?_⟩
    · intro e
      simp only [MetaStoreHandle.store]
      repeat' split
      all_goals simp_all
    · intro _
      simp only [MetaStoreHandle.store]
      repeat' split
      all_goals simp_all

/-- Claim C7 witness: with the channel closed a concrete store panics;
with it alive the same store does not panic. -/
theorem store_external_failure_policy_witness :
    MetaStoreHandle.store true ⟨[], [], []⟩ ⟨"n", .external 0⟩
      DatabaseConfig.default 0 = .panicked ∧
    MetaStoreHandle.store false ⟨[], [], []⟩ ⟨"n", .external 0⟩
      DatabaseConfig.default 0 ≠ .panicked := by
  exact ⟨(store_external_failure_policy true ⟨[], [], []⟩ "n" 0
            DatabaseConfig.default 0).2.1 rfl,
         (store_external_failure_policy false ⟨[], [], []⟩ "n" 0
            DatabaseConfig.default 0).2.2 rfl⟩

/-- Claim C1 fails on the code: a concrete run in which the second
`store` on the same External handle completes (returns `Ok`) while its
message is still unconsumed, because the awaited `changed()` runs on a
clone of the handle's receiver whose seen version is the subscription
time's version 0, already different from the cell version 1 left by the
first store.  The following `get` returns the first config, strictly
older than the one just stored. -/
theorem store_second_completes_stale :
    MetaStore.handle ⟨[], [], []⟩ "n"
      = (⟨[], [("n", ⟨DatabaseConfig.default, 0⟩)], []⟩, ⟨"n", .external 0⟩) ∧
    MetaStoreHandle.store false ⟨[], [("n", ⟨DatabaseConfig.default, 0⟩)], []⟩
      ⟨"n", .external 0⟩ ⟨1, false⟩ 1
      = .ok ⟨[], [("n", ⟨⟨1, false⟩, 1⟩)], []⟩ ∧
    MetaStoreHandle.store false ⟨[], [("n", ⟨⟨1, false⟩, 1⟩)], []⟩
      ⟨"n", .external 0⟩ ⟨2, false⟩ 0
      = .ok ⟨[("n", ⟨2, false⟩)], [("n", ⟨⟨1, false⟩, 1⟩)], []⟩ ∧
    MetaStoreHandle.get ⟨[("n", ⟨2, false⟩)], [("n", ⟨⟨1, false⟩, 1⟩)], []⟩
      ⟨"n", .external 0⟩ = ⟨1, false⟩ ∧
    (⟨1, false⟩ : DatabaseConfig) ≠ ⟨2, false⟩ := by
  decide

/-- Claim C3, part one of the proof kit: `or_insert_with` behavior of
`MetaStore::handle`, and the scenario of a fresh handle observing a
completed store.  Conjunct one: when a sender already exists for the
namespace, requesting a handle changes nothing (no second sender is ever
created).  Conjunct two: the sender is created lazily, on the first
handle request, with the default config at version 0.  Conjunct three:
after a store through a freshly subscribed External handle completes
from a quiescent state, a handle obtained afterwards for the same
namespace reads the stored config via `get`, with no further
signaling. -/
theorem handle_unique_sender_and_fresh_handle_sees_store :
    ∀ (w w2 : World) (ns : NamespaceName) (c : DatabaseConfig) (k : Nat),
      ((lookupCfg w.configs ns).isSome → (MetaStore.handle w ns).1 = w) ∧
      (lookupCfg w.configs ns = none →
        (MetaStore.handle w ns).1.configs
          = w.configs ++ [(ns, ⟨DatabaseConfig.default, 0⟩)]) ∧
      (w.queue = [] →
        MetaStoreHandle.store false w ⟨ns, .external (versionAt w ns)⟩ c k = .ok w2 →
        MetaStoreHandle.get (MetaStore.handle w2 ns).1 (MetaStore.handle w2 ns).2
          = c) := by
  intro w w2 ns c k
  refine ⟨?_, ?_, ?_⟩
  · intro hsome
    cases hl : lookupCfg w.configs ns with
    | some cell => simp [MetaStore.handle, hl]
    | none => rw [hl] at hsome; simp at hsome
  · intro hnone
    simp [MetaStore.handle, hnone]
  · intro hq hstore
    obtain ⟨q, cfgs, cells⟩ := w
    change q = [] at hq
    subst hq
    simp only [MetaStoreHandle.store, channelCapacity] at hstore
    cases k with
    | zero =>
      simp [runConsumer, versionAt] at hstore
    | succ m =>
      have hrc : runConsumer ⟨[] ++ [(ns, c)], cfgs, cells⟩ (m + 1)
          = ⟨[], publishCfg cfgs ns c, cells⟩ := by
        rw [runConsumer]
        have h1 : consumerStep ⟨[] ++ [(ns, c)], cfgs, cells⟩
            = ⟨[], publishCfg cfgs ns c, cells⟩ := rfl
        rw [h1]
        exact runConsumer_nil_queue _ rfl m
      rw [hrc] at hstore
      have hv : versionAt ⟨[], publishCfg cfgs ns c, cells⟩ ns
          = versionOfCfgs cfgs ns + 1 := by
        simp [versionAt, versionOfCfgs, lookupCfg_publishCfg_self]
      have hne : versionAt ⟨[], publishCfg cfgs ns c, cells⟩ ns
          ≠ versionAt ⟨[], cfgs, cells⟩ ns := by
        rw [hv]
        exact Nat.succ_ne_self _
      simp [hne] at hstore
      subst hstore
      simp [MetaStore.handle, MetaStoreHandle.get, lookupCfg_publishCfg_self]

/-- Claim C3 witness: with an existing sender a handle request leaves
the store untouched; with none the sender is created lazily; and the
fresh-handle-after-store scenario at quota 100. -/
theorem handle_unique_sender_witness :
    (MetaStore.handle ⟨[], [("n", ⟨DatabaseConfig.default, 0⟩)], []⟩ "n").1
      = ⟨[], [("n", ⟨DatabaseConfig.default, 0⟩)], []⟩ ∧
    (MetaStore.handle ⟨[], [], []⟩ "n").1.configs
      = [] ++ [("n", ⟨DatabaseConfig.default, 0⟩)] ∧
    MetaStoreHandle.get
      (MetaStore.handle ⟨[], [("n", ⟨⟨100, false⟩, 1⟩)], []⟩ "n").1
      (MetaStore.handle ⟨[], [("n", ⟨⟨100, false⟩, 1⟩)], []⟩ "n").2
      = ⟨100, false⟩ := by
  refine ⟨?_, ?_, ?_⟩
  · exact (handle_unique_sender_and_fresh_handle_sees_store
      ⟨[], [("n", ⟨DatabaseConfig.default, 0⟩)], []⟩ ⟨[], [], []⟩ "n"
      DatabaseConfig.default 0).1 (by decide)
  · exact (handle_unique_sender_and_fresh_handle_sees_store
      ⟨[], [], []⟩ ⟨[], [], []⟩ "n" DatabaseConfig.default 0).2.1 (by decide)
  · exact (handle_unique_sender_and_fresh_handle_sees_store
      ⟨[], [("n", ⟨DatabaseConfig.default, 0⟩)], []⟩
      ⟨[], [("n", ⟨⟨100, false⟩, 1⟩)], []⟩ "n" ⟨100, false⟩ 1).2.2 rfl (by decide)

/-- Claim C4: on an External handle, `get` never blocks and never
touches the change channel (it is a pure read that does not depend on
the channel contents), and it returns the watch cell's current value —
in particular, immediately after the consumer publishes a config for the
handle's namespace, `get` returns exactly that config. -/
theorem external_get_nonblocking_snapshot :
    ∀ (w : World) (h : MetaStoreHandle) (seen : Nat),
      h.state = .external seen →
      (∀ q, MetaStoreHandle.get { w with queue := q } h = MetaStoreHandle.get w h) ∧
      (∀ cell, lookupCfg w.configs h.ns = some cell →
        MetaStoreHandle.get w h = cell.value) ∧
      (∀ c rest, w.queue = (h.ns, c) :: rest →
        MetaStoreHandle.get (consumerStep w) h = c) := by
  intro w h seen hstate
  refine ⟨?_, ?_, ?_⟩
  · intro q
    simp [MetaStoreHandle.get, hstate]
  · intro cell hcell
    simp [MetaStoreHandle.get, hstate, hcell]
  · intro c rest hqueue
    have hcs : consumerStep w
        = { w with queue := rest, configs := publishCfg w.configs h.ns c } := by
      unfold consumerStep
      rw [hqueue]
    rw [hcs]
    simp [MetaStoreHandle.get, hstate, lookupCfg_publishCfg_self]

/-- Claim C4 witness: a concrete External handle's `get` ignores the
queue, reads the cell's current value, and sees a freshly published
config. -/
theorem external_get_nonblocking_snapshot_witness :
    MetaStoreHandle.get ⟨[("n", ⟨7, true⟩)], [("n", ⟨⟨3, false⟩, 5⟩)], []⟩
      ⟨"n", .external 0⟩
      = MetaStoreHandle.get ⟨[], [("n", ⟨⟨3, false⟩, 5⟩)], []⟩ ⟨"n", .external 0⟩ ∧
    MetaStoreHandle.get ⟨[], [("n", ⟨⟨3, false⟩, 5⟩)], []⟩ ⟨"n", .external 0⟩
      = (⟨3, false⟩ : DatabaseConfig) ∧
    MetaStoreHandle.get
      (consumerStep ⟨[("n", ⟨7, true⟩)], [("n", ⟨⟨3, false⟩, 5⟩)], []⟩)
      ⟨"n", .external 0⟩ = ⟨7, true⟩ := by
  refine ⟨?_, ?_, ?_⟩
  · exact (external_get_nonblocking_snapshot ⟨[], [("n", ⟨⟨3, false⟩, 5⟩)], []⟩
      ⟨"n", .external 0⟩ 0 rfl).1 [("n", ⟨7, true⟩)]
  · exact (external_get_nonblocking_snapshot ⟨[], [("n", ⟨⟨3, false⟩, 5⟩)], []⟩
      ⟨"n", .external 0⟩ 0 rfl).2.1 ⟨⟨3, false⟩, 5⟩ rfl
  · exact (external_get_nonblocking_snapshot
      ⟨[("n", ⟨7, true⟩)], [("n", ⟨⟨3, false⟩, 5⟩)], []⟩
      ⟨"n", .external 0⟩ 0 rfl).2.2 ⟨7, true⟩ [] rfl

/-- Claim C8: when two stores for the same namespace land on the change
channel in either order, the single consumer processes one whole
message per step (after one step exactly the other message remains and
its cell holds one entire config, after two the queue is drained), and
the finally observed config is one of the two stored values, never a
mixture. -/
theorem concurrent_stores_serialized :
    ∀ (w : World) (ns : NamespaceName) (c1 c2 : DatabaseConfig) (seen : Nat),
      (w.queue = [(ns, c1), (ns, c2)] ∨ w.queue = [(ns, c2), (ns, c1)]) →
      ((consumerStep w).queue = [(ns, c2)] ∨ (consumerStep w).queue = [(ns, c1)]) ∧
      (consumerStep (consumerStep w)).queue = [] ∧
      ((MetaStoreHandle.get (consumerStep w) ⟨ns, .external seen⟩ = c1 ∧
        MetaStoreHandle.get (consumerStep (consumerStep w)) ⟨ns, .external seen⟩ = c2) ∨
       (MetaStoreHandle.get (consumerStep w) ⟨ns, .external seen⟩ = c2 ∧
        MetaStoreHandle.get (consumerStep (consumerStep w)) ⟨ns, .external seen⟩ = c1)) ∧
      (MetaStoreHandle.get (consumerStep (consumerStep w)) ⟨ns, .external seen⟩ = c1 ∨
       MetaStoreHandle.get (consumerStep (consumerStep w)) ⟨ns, .external seen⟩ = c2) := by
  intro w ns c1 c2 seen hq
  obtain ⟨q, cfgs, cells⟩ := w
  rcases hq with hq | hq
  · change q = _ at hq
    subst hq
    refine ⟨Or.inl rfl, rfl, Or.inl ⟨?_, ?_⟩, Or.inr ?_⟩ <;>
      simp [MetaStoreHandle.get, consumerStep, lookupCfg_publishCfg_self]
  · change q = _ at hq
    subst hq
    refine ⟨Or.inr rfl, rfl, Or.inr ⟨?_, ?_⟩, Or.inl ?_⟩ <;>
      simp [MetaStoreHandle.get, consumerStep, lookupCfg_publishCfg_self]

/-- Claim C8 witness: a concrete pair of queued stores, consumed in
order, ends with one of the two configs. -/
theorem concurrent_stores_serialized_witness :
    MetaStoreHandle.get
      (consumerStep (consumerStep ⟨[("n", ⟨1, false⟩), ("n", ⟨2, true⟩)], [], []⟩))
      ⟨"n", .external 0⟩ = ⟨1, false⟩ ∨
    MetaStoreHandle.get
      (consumerStep (consumerStep ⟨[("n", ⟨1, false⟩), ("n", ⟨2, true⟩)], [], []⟩))
      ⟨"n", .external 0⟩ = ⟨2, true⟩ :=
  (concurrent_stores_serialized ⟨[("n", ⟨1, false⟩), ("n", ⟨2, true⟩)], [], []⟩
    "n" ⟨1, false⟩ ⟨2, true⟩ 0 (Or.inl rfl)).2.2.2

/-- Claim C10: `MetaStore::handle` returns an External handle for every
namespace name — it never inspects the name, so the reserved
`_libsql_server_internal` name gets an External handle too — while
`MetaStoreHandle::internal` is what produces the Internal form; and the
External handle's watch cell is distinct from the Internal handle's
mutex cell: storing quota 100 through the External handle for the
reserved name leaves the Internal handle reading the default config. -/
theorem handle_always_external_and_cells_disjoint :
    (∀ (w : World) (ns : NamespaceName),
      ((MetaStore.handle w ns).2).state.isExternal = true) ∧
    (((MetaStore.handle ⟨[], [], []⟩ INTERNAL_NAMESPACE).2).state.isExternal = true ∧
     ((MetaStoreHandle.internal ⟨[], [], []⟩).2).state.isExternal = false ∧
     MetaStoreHandle.internal ⟨[], [], []⟩
       = (⟨[], [], [DatabaseConfig.default]⟩,
          ⟨INTERNAL_NAMESPACE, .internal 0⟩) ∧
     MetaStore.handle ⟨[], [], [DatabaseConfig.default]⟩ INTERNAL_NAMESPACE
       = (⟨[], [(INTERNAL_NAMESPACE, ⟨DatabaseConfig.default, 0⟩)],
            [DatabaseConfig.default]⟩,
          ⟨INTERNAL_NAMESPACE, .external 0⟩) ∧
     MetaStoreHandle.store false
       ⟨[], [(INTERNAL_NAMESPACE, ⟨DatabaseConfig.default, 0⟩)],
         [DatabaseConfig.default]⟩
       ⟨INTERNAL_NAMESPACE, .external 0⟩ ⟨100, false⟩ 1
       = .ok ⟨[], [(INTERNAL_NAMESPACE, ⟨⟨100, false⟩, 1⟩)],
           [DatabaseConfig.default]⟩ ∧
     MetaStoreHandle.get
       ⟨[], [(INTERNAL_NAMESPACE, ⟨⟨100, false⟩, 1⟩)], [DatabaseConfig.default]⟩
       ⟨INTERNAL_NAMESPACE, .external 0⟩ = ⟨100, false⟩ ∧
     MetaStoreHandle.get
       ⟨[], [(INTERNAL_NAMESPACE, ⟨⟨100, false⟩, 1⟩)], [DatabaseConfig.default]⟩
       ⟨INTERNAL_NAMESPACE, .internal 0⟩ = DatabaseConfig.default ∧
     (⟨100, false⟩ : DatabaseConfig) ≠ DatabaseConfig.default) := by
  refine ⟨?_, by decide⟩
  intro w ns
  cases hl : lookupCfg w.configs ns <;>
    simp [MetaStore.handle, hl, HandleState.isExternal]

/-- Unwrapping commutes with the wrapper's lifting of a fallible
value-and-state result. -/
lemma obsPair_wrap {σ α : Type} (r : Except Int (α × σ)) :
    obsPair (r.map fun p => (p.1, (⟨p.2⟩ : WrapWal σ))) = r := by
  cases r <;> rfl

/-- Unwrapping commutes with the wrapper's lifting of a fallible
state-only result. -/
lemma obsState_wrap {σ : Type} (r : Except Int σ) :
    obsState (r.map fun s => (⟨s⟩ : WrapWal σ)) = r := by
  cases r <;> rfl

/-- Claim C5: the pass-through wrapper is behaviorally identical to the
inner WAL it delegates to.  For every operation of the `Wal` interface
and of the `CreateWal` factory, and for every inner implementation and
every input, the wrapped operation returns exactly the inner operation's
result — same values, same updated state (up to the `WrapWal`
constructor, stripped by `obsPair`/`obsState`), and error codes passed
through unchanged. -/
theorem wrap_wal_pass_through :
    ∀ (σ τ : Type) (W : WalOps σ) (CW : CreateWalOps τ σ),
      (∀ s size, ((wrapWalOps W).limit ⟨s⟩ size).inner = W.limit s size) ∧
      (∀ s, obsPair ((wrapWalOps W).begin_read_txn ⟨s⟩) = W.begin_read_txn s) ∧
      (∀ s, ((wrapWalOps W).end_read_txn ⟨s⟩).inner = W.end_read_txn s) ∧
      (∀ s page_no,
        obsPair ((wrapWalOps W).find_frame ⟨s⟩ page_no) = W.find_frame s page_no) ∧
      (∀ s frame_no buffer,
        obsPair ((wrapWalOps W).read_frame ⟨s⟩ frame_no buffer)
          = W.read_frame s frame_no buffer) ∧
      (∀ s, (wrapWalOps W).db_size ⟨s⟩ = W.db_size s) ∧
      (∀ s, obsState ((wrapWalOps W).begin_write_txn ⟨s⟩) = W.begin_write_txn s) ∧
      (∀ s, obsState ((wrapWalOps W).end_write_txn ⟨s⟩) = W.end_write_txn s) ∧
      (∀ s handler, obsState ((wrapWalOps W).undo ⟨s⟩ handler) = W.undo s handler) ∧
      (∀ s rollback_data,
        (((wrapWalOps W).savepoint ⟨s⟩ rollback_data).1,
         ((wrapWalOps W).savepoint ⟨s⟩ rollback_data).2.inner)
          = W.savepoint s rollback_data) ∧
      (∀ s rollback_data,
        obsPair ((wrapWalOps W).savepoint_undo ⟨s⟩ rollback_data)
          = W.savepoint_undo s rollback_data) ∧
      (∀ s page_size page_headers size_after is_commit sync_flags,
        obsState ((wrapWalOps W).insert_frames ⟨s⟩ page_size page_headers
            size_after is_commit sync_flags)
          = W.insert_frames s page_size page_headers size_after is_commit
              sync_flags) ∧
      (∀ s db mode busy_handler sync_flags buf,
        obsPair ((wrapWalOps W).checkpoint ⟨s⟩ db mode busy_handler sync_flags buf)
          = W.checkpoint s db mode busy_handler sync_flags buf) ∧
      (∀ s op, obsState ((wrapWalOps W).exclusive_mode ⟨s⟩ op)
          = W.exclusive_mode s op) ∧
      (∀ s, (wrapWalOps W).uses_heap_memory ⟨s⟩ = W.uses_heap_memory s) ∧
      (∀ s db, ((wrapWalOps W).set_db ⟨s⟩ db).inner = W.set_db s db) ∧
      (∀ s, (wrapWalOps W).callback ⟨s⟩ = W.callback s) ∧
      (∀ s, (wrapWalOps W).last_fame_index ⟨s⟩ = W.last_fame_index s) ∧
      (∀ t, (wrapCreateWalOps CW).use_shared_memory ⟨t⟩ = CW.use_shared_memory t) ∧
      (∀ t vfs file no_shm_mode max_log_size db_path,
        obsState ((wrapCreateWalOps CW).open_wal ⟨t⟩ vfs file no_shm_mode
            max_log_size db_path)
          = CW.open_wal t vfs file no_shm_mode max_log_size db_path) ∧
      (∀ t wal db sync_flags scratch,
        (wrapCreateWalOps CW).close_wal ⟨t⟩ ⟨wal⟩ db sync_flags scratch
          = CW.close_wal t wal db sync_flags scratch) ∧
      (∀ t vfs db_path,
        (wrapCreateWalOps CW).destroy_log ⟨t⟩ vfs db_path
          = CW.destroy_log t vfs db_path) ∧
      (∀ t vfs db_path,
        (wrapCreateWalOps CW).log_exists ⟨t⟩ vfs db_path
          = CW.log_exists t vfs db_path) ∧
      (∀ t, (wrapCreateWalOps CW).destroy ⟨t⟩ = CW.destroy t) := by
  intro σ τ W CW
  exact ⟨fun s size => rfl,
         fun s => obsPair_wrap _,
         fun s => rfl,
         fun s page_no => obsPair_wrap _,
         fun s frame_no buffer => obsPair_wrap _,
         fun s => rfl,
         fun s => obsState_wrap _,
         fun s => obsState_wrap _,
         fun s handler => obsState_wrap _,
         fun s rollback_data => rfl,
         fun s rollback_data => obsPair_wrap _,
         fun s a b c d e => obsState_wrap _,
         fun s a b c d e => obsPair_wrap _,
         fun s op => obsState_wrap _,
         fun s => rfl,
         fun s db => rfl,
         fun s => rfl,
         fun s => rfl,
         fun t => rfl,
         fun t a b c d e => obsState_wrap _,
         fun t w a b c => rfl,
         fun t a b => rfl,
         fun t a b => rfl,
         fun t => rfl⟩
